import Mathlib

/-!
A verification development for the hybrid bioreactor simulation engine of
`Bioprocessing_app.py`: the kinetics model library, the crash tracking in
perfusion mode, the hybrid run simulator (continuous intervals separated by
discrete exchange / harvest events), the per-run parameter variability
injection, and the productivity metrics calculator.

Numbers are modelled by `ℚ` (exact arithmetic standing in for Python floats).
The off-the-shelf ODE integrator (`scipy.integrate.odeint`) is not part of the
repository; it is modelled as an abstract solver argument mapping an initial
state and a time grid to a list of states, so every theorem about trajectory
structure is quantified over the solver.
-/

/-- Bioreactor state `[X, S, P]`: biomass, substrate, product concentrations (g/L). -/
structure BState where
  X : ℚ
  S : ℚ
  P : ℚ
deriving Repr, DecidableEq

/-- Instantaneous rates `[dX_dt, dS_dt, dP_dt]` returned by a kinetics function. -/
structure Rates where
  dX : ℚ
  dS : ℚ
  dP : ℚ
deriving Repr, DecidableEq

/-- The crash tracker state that the source keeps as attributes
(`perfusion_kinetics.S_max`, `perfusion_kinetics.crashed`) on the rate
function itself, made an explicit value threaded through each evaluation. -/
structure CrashTracker where
  S_max : ℚ
  crashed : Bool
deriving Repr, DecidableEq

/-- `batch_kinetics` from the source: Monod growth, no dilution. -/
def batch_kinetics (y : BState) (mu_max Ks Y_xs Y_xp : ℚ) : Rates :=
  let mu := mu_max * y.S / (Ks + y.S)
  let dX_dt := mu * y.X
  let dS_dt := -1 / Y_xs * dX_dt
  let dP_dt := Y_xp * dX_dt
  { dX := dX_dt, dS := dS_dt, dP := dP_dt }

/-- `fed_batch_kinetics` from the source: Monod growth with dilution `D = F/V`. -/
def fed_batch_kinetics (y : BState) (mu_max Ks Y_xs Y_xp F V Sf : ℚ) : Rates :=
  let mu := mu_max * y.S / (Ks + y.S)
  let D := F / V
  let dX_dt := mu * y.X - D * y.X
  let dS_dt := D * (Sf - y.S) - mu * y.X / Y_xs
  let dP_dt := Y_xp * mu * y.X - D * y.P
  { dX := dX_dt, dS := dS_dt, dP := dP_dt }

/-- `perfusion_kinetics` from the source, with the function-attribute state
(`S_max`, `crashed`) passed and returned explicitly.  The substrate is clamped
to be non-negative, the running peak substrate is updated, the crash threshold
is `0.000015 * S_max`, and the branch between the crash regime and normal
operation is decided by comparing the current substrate to that threshold. -/
def perfusion_kinetics (tr : CrashTracker) (y : BState)
    (mu_max Ks Y_xs Y_xp D Sf R D_bleed : ℚ) : Rates × CrashTracker :=
  let X := y.X
  let S := max 0 y.S
  let P := y.P
  let S_max := max tr.S_max S
  let S_threshold := (15 / 1000000 : ℚ) * S_max
  if S ≤ S_threshold then
    -- CRASH STATE: complete cessation of biological activity
    ({ dX := -(1 - R) * D * X - D_bleed * X,
       dS := D * (Sf - S) - D_bleed * S,
       dP := -D * P - D_bleed * P },
     { S_max := S_max, crashed := true })
  else
    -- NORMAL OPERATION: active cell growth
    let mu := mu_max * S / (Ks + S)
    let cell_growth := mu * X
    let cell_overflow := -(1 - R) * D * X
    let cell_bleed := -D_bleed * X
    let substrate_in := D * Sf
    let substrate_out := -D * S
    let substrate_consumed := -(mu * X / Y_xs)
    let product_formation := Y_xp * mu * X
    let product_out := -D * P
    ({ dX := cell_growth + cell_overflow + cell_bleed,
       dS := substrate_in + substrate_out + substrate_consumed,
       dP := product_formation + product_out },
     { S_max := S_max, crashed := false })

/-- C1, as stated, is false: in the normal-operation branch the code's
`dS_dt` has no `-D_bleed*S` term (`substrate_out = -D * S` only) and its
`dP_dt` washes product out at rate `D`, not `D + D_bleed`.  Concrete input:
state `(X,S,P) = (1,10,1)`, `mu_max=2/5`, `Ks=7/10`, `Y_xs=3/5`, `Y_xp=3/10`,
`D=1/5`, `Sf=300`, `R=19/20`, `D_bleed=1/50`, peak substrate `300`, so the
threshold is `0.0045 < 10` and the culture is healthy. -/
theorem perfusion_rates_claim_false :
    ¬ ((perfusion_kinetics ⟨300, false⟩ ⟨1, 10, 1⟩ (2/5) (7/10) (3/5) (3/10)
          (1/5) 300 (19/20) (1/50)).1.dX
        = (2/5) * 10 / (7/10 + 10) * 1 - (1 - 19/20) * (1/5) * 1 - (1/50) * 1
      ∧ (perfusion_kinetics ⟨300, false⟩ ⟨1, 10, 1⟩ (2/5) (7/10) (3/5) (3/10)
          (1/5) 300 (19/20) (1/50)).1.dS
        = (1/5) * (300 - 10) - (1/50) * 10 - (2/5) * 10 / (7/10 + 10) * 1 / (3/5)
      ∧ (perfusion_kinetics ⟨300, false⟩ ⟨1, 10, 1⟩ (2/5) (7/10) (3/5) (3/10)
          (1/5) 300 (19/20) (1/50)).1.dP
        = (3/10) * ((2/5) * 10 / (7/10 + 10)) * 1 - (1/5 + 1/50) * 1) := by
  norm_num [perfusion_kinetics, max_def]

/-- C1, amended to the code: while the substrate is strictly above the crash
threshold, the perfusion rate function returns
`dX = mu*X - (1-R)*D*X - D_bleed*X`,
`dS = D*(Sf-S) - mu*X/Y_xs` (the liquid-outflow term is `-D*S` only, with no
separate bleed washout of substrate), and
`dP = Y_xp*mu*X - D*P` (product washed out at the feed dilution rate only),
where `mu = mu_max*S/(Ks+S)`. -/
theorem perfusion_kinetics_healthy_rates
    (tr : CrashTracker) (X S P mu_max Ks Y_xs Y_xp D Sf R D_bleed : ℚ)
    (hmu : 0 < mu_max) (hKs : 0 < Ks) (hYxs : 0 < Y_xs) (hYxp : 0 < Y_xp)
    (hR0 : 0 ≤ R) (hR1 : R ≤ 1) (hS0 : 0 ≤ S)
    (hthr : 15 / 1000000 * max tr.S_max S < S) :
    (perfusion_kinetics tr ⟨X, S, P⟩ mu_max Ks Y_xs Y_xp D Sf R D_bleed).1.dX
        = mu_max * S / (Ks + S) * X - (1 - R) * D * X - D_bleed * X
    ∧ (perfusion_kinetics tr ⟨X, S, P⟩ mu_max Ks Y_xs Y_xp D Sf R D_bleed).1.dS
        = D * (Sf - S) - mu_max * S / (Ks + S) * X / Y_xs
    ∧ (perfusion_kinetics tr ⟨X, S, P⟩ mu_max Ks Y_xs Y_xp D Sf R D_bleed).1.dP
        = Y_xp * (mu_max * S / (Ks + S)) * X - D * P := by
  have hmax : max (0:ℚ) S = S := max_eq_right hS0
  simp only [perfusion_kinetics, hmax]
  rw [if_neg (not_le.mpr hthr)]
  refine ⟨by ring, by ring, by ring⟩

/-- Witness for `perfusion_kinetics_healthy_rates` at the concrete healthy
input of `perfusion_rates_claim_false`. -/
theorem perfusion_kinetics_healthy_rates_witness :
    ((0:ℚ) < 2/5) ∧ ((0:ℚ) < 7/10) ∧ ((0:ℚ) < 3/5) ∧ ((0:ℚ) < 3/10)
    ∧ ((0:ℚ) ≤ 19/20) ∧ ((19/20:ℚ) ≤ 1) ∧ ((0:ℚ) ≤ 10)
    ∧ ((15:ℚ) / 1000000 * max (CrashTracker.mk 300 false).S_max 10 < 10)
    ∧ ((perfusion_kinetics ⟨300, false⟩ ⟨1, 10, 1⟩ (2/5) (7/10) (3/5) (3/10)
          (1/5) 300 (19/20) (1/50)).1.dX
        = (2/5) * 10 / (7/10 + 10) * 1 - (1 - 19/20) * (1/5) * 1 - (1/50) * 1
      ∧ (perfusion_kinetics ⟨300, false⟩ ⟨1, 10, 1⟩ (2/5) (7/10) (3/5) (3/10)
          (1/5) 300 (19/20) (1/50)).1.dS
        = (1/5) * (300 - 10) - (2/5) * 10 / (7/10 + 10) * 1 / (3/5)
      ∧ (perfusion_kinetics ⟨300, false⟩ ⟨1, 10, 1⟩ (2/5) (7/10) (3/5) (3/10)
          (1/5) 300 (19/20) (1/50)).1.dP
        = (3/10) * ((2/5) * 10 / (7/10 + 10)) * 1 - (1/5) * 1) :=
  ⟨by norm_num, by norm_num, by norm_num, by norm_num, by norm_num, by norm_num,
   by norm_num, by norm_num,
   perfusion_kinetics_healthy_rates ⟨300, false⟩ 1 10 1 (2/5) (7/10) (3/5) (3/10)
     (1/5) 300 (19/20) (1/50) (by norm_num) (by norm_num) (by norm_num)
     (by norm_num) (by norm_num) (by norm_num) (by norm_num) (by norm_num)⟩

/-- C2: the crash is not irreversible in the code.  Within one run (feed
substrate 300, so peak `S_max = 300` and threshold `0.0045`), a rate
evaluation at `S = 0.001` enters the crash branch and sets `crashed := true`;
a later evaluation of the same run at `S = 10` (substrate restored by the
continued feed) re-enters the normal-operation branch, resets `crashed` to
`false`, and returns a strictly positive biomass rate — the branch tests only
the current substrate against the threshold and never consults the stored
`crashed` flag, contradicting the function's own documentation
("No biological recovery after crash"). -/
theorem perfusion_crash_not_irreversible :
    ((perfusion_kinetics ⟨300, false⟩ ⟨1, 1/1000, 0⟩ (2/5) (7/10) (3/5) (3/10)
        (1/5) 300 (19/20) (1/50)).2.crashed = true)
    ∧ ((perfusion_kinetics
          (perfusion_kinetics ⟨300, false⟩ ⟨1, 1/1000, 0⟩ (2/5) (7/10) (3/5)
            (3/10) (1/5) 300 (19/20) (1/50)).2
          ⟨1, 10, 0⟩ (2/5) (7/10) (3/5) (3/10) (1/5) 300 (19/20) (1/50)).2.crashed
        = false)
    ∧ (0 < (perfusion_kinetics
          (perfusion_kinetics ⟨300, false⟩ ⟨1, 1/1000, 0⟩ (2/5) (7/10) (3/5)
            (3/10) (1/5) 300 (19/20) (1/50)).2
          ⟨1, 10, 0⟩ (2/5) (7/10) (3/5) (3/10) (1/5) 300 (19/20) (1/50)).1.dX) := by
  norm_num [perfusion_kinetics, max_def]

/-- `np.linspace a b n`: `n` evenly spaced samples from `a` to `b`
(`a + (b-a)*i/(n-1)` for `i = 0, …, n-1`). -/
def linspace (a b : ℚ) (n : ℕ) : List ℚ :=
  (List.range n).map (fun i : ℕ => a + (b - a) * (i : ℚ) / ((n : ℚ) - 1))

/-- The kinetic parameters handed to `odeint` for the batch-kinetics model. -/
structure KinParams where
  mu_max : ℚ
  ks : ℚ
  Y_xs : ℚ
  Y_xp : ℚ

/-- A model of the external adaptive ODE integrator (`scipy.integrate.odeint`)
for the batch-kinetics model: it receives the kinetic parameters, the initial
state and the requested time grid, and returns one state per grid time.  It is
not part of the repository, so trajectory-structure theorems quantify over it. -/
def Solver : Type := KinParams → BState → List ℚ → List BState

/-- A degenerate concrete integrator (the solution frozen at the initial
state), used to instantiate solver-quantified theorems at concrete inputs. -/
def constSolver : Solver := fun _ y0 ts => ts.map (fun _ => y0)

/-- The arguments handed to `odeint` for the perfusion model. -/
structure PerfArgs where
  kp : KinParams
  D : ℚ
  Sf : ℚ
  R : ℚ
  D_bleed : ℚ

/-- A model of the external ODE integrator for the perfusion model; it also
receives the initial crash-tracker state that `run_simulation` installs on the
rate function before solving. -/
def PerfSolver : Type := PerfArgs → CrashTracker → BState → List ℚ → List BState

/-- A degenerate concrete perfusion integrator returning a constant healthy
state, used to instantiate solver-quantified theorems at concrete inputs. -/
def constPerfSolver : PerfSolver := fun _ _ _ ts => ts.map (fun _ => (⟨2, 50, 1⟩ : BState))

/-- The trajectory table (`df`) built by `run_simulation`: the `Time (h)`,
`Biomass (g/L)`, `Substrate (g/L)`, product and `Volume (L)` columns.  Modes
without a volume column (batch, bleed-perfusion) leave `V` empty. -/
structure Traj where
  t : List ℚ
  X : List ℚ
  S : List ℚ
  P : List ℚ
  V : List ℚ

/-- The flat parameter mapping (`current_params` / `sim_params`).  All modes
share one shape; each mode reads the fields it needs.  The harvest schedule
fields come from integer UI inputs and are modelled as naturals. -/
structure Params where
  initial_substrate : ℚ
  initial_biomass : ℚ
  initial_volume : ℚ
  mu_max : ℚ
  ks : ℚ
  Y_xs : ℚ
  Y_xp : ℚ
  feed_substrate : ℚ
  exchange_time : ℚ
  exchange_volume_percent : ℚ
  harvest_volume_percent : ℚ
  first_harvest_time : ℕ
  subsequent_harvest_time : ℕ
  num_cycles : ℕ
  feed_rate : ℚ
  bleed_rate : ℚ
  cell_retention : ℚ

/-- The four bioreactor operating modes. -/
inductive Mode
  | batch
  | fedBatch
  | repeatedFedBatch
  | bleedPerfusion

/-- The per-run variability injection at the top of `run_simulation`: each of
`mu_max, ks, Y_xs, Y_xp` is multiplied by `(1 + r)` for its own random factor
`r` (a normal draw whose standard deviation is the per-run strength), then
clamped to its valid domain.  The random draws are explicit arguments of the
embedding. -/
def apply_variability (p : Params) (r_mu r_ks r_yxs r_yxp : ℚ) : Params :=
  { p with
    mu_max := max (1/100) (p.mu_max * (1 + r_mu)),
    ks := max (1/100) (p.ks * (1 + r_ks)),
    Y_xs := max (1/10) (min 1 (p.Y_xs * (1 + r_yxs))),
    Y_xp := max (1/100) (min 1 (p.Y_xp * (1 + r_yxp))) }

/-- The `Batch` branch of `run_simulation`: a single integration interval over
`linspace 0 50 500`, no events, no volume column. -/
def run_batch (solve : Solver) (p : Params) : Traj :=
  let t_span := linspace 0 50 500
  let y0 : BState := ⟨p.initial_biomass, p.initial_substrate, 0⟩
  let sol := solve ⟨p.mu_max, p.ks, p.Y_xs, p.Y_xp⟩ y0 t_span
  { t := t_span, X := sol.map (·.X), S := sol.map (·.S), P := sol.map (·.P), V := [] }

/-- The `Fed-Batch` branch of `run_simulation`: a batch phase on
`linspace 0 exchange_time 250`, then the instantaneous volume-exchange event
(concentrations blended with fresh feed in proportion `keep_fraction`,
volume unchanged), recorded as an extra appended sample at the exchange time,
then a second batch phase on `linspace exchange_time 50 250` whose first row
is dropped. -/
def run_fed_batch (solve : Solver) (p : Params) : Traj :=
  let kp : KinParams := ⟨p.mu_max, p.ks, p.Y_xs, p.Y_xp⟩
  let y0 : BState := ⟨p.initial_biomass, p.initial_substrate, 0⟩
  let V := p.initial_volume
  let t_before := linspace 0 p.exchange_time 250
  let sol_before := solve kp y0 t_before
  let y_before_exchange := sol_before.getLastD y0
  let exchange_fraction := p.exchange_volume_percent / 100
  let keep_fraction := 1 - exchange_fraction
  let S_after := keep_fraction * y_before_exchange.S + exchange_fraction * p.feed_substrate
  let X_after := keep_fraction * y_before_exchange.X
  let P_after := keep_fraction * y_before_exchange.P
  let V_after_exchange := V
  let y0_after : BState := ⟨X_after, S_after, P_after⟩
  let t_after := linspace p.exchange_time 50 250
  let sol_after := solve kp y0_after t_after
  { t := t_before ++ [p.exchange_time] ++ t_after.drop 1,
    X := sol_before.map (·.X) ++ [X_after] ++ (sol_after.drop 1).map (·.X),
    S := sol_before.map (·.S) ++ [S_after] ++ (sol_after.drop 1).map (·.S),
    P := sol_before.map (·.P) ++ [P_after] ++ (sol_after.drop 1).map (·.P),
    V := List.replicate t_before.length V ++ [V_after_exchange]
         ++ List.replicate (t_after.drop 1).length V_after_exchange }

/-- One harvest-then-refeed event of a repeated fed-batch run, recorded as
ghost instrumentation for specification purposes (the concentrations and
volume just before the harvest, and the harvested volume); it is not part of
the program's returned data. -/
structure HarvestEvent where
  X_before : ℚ
  P_before : ℚ
  V_before : ℚ
  harvest_volume : ℚ

/-- The loop state of the `Repeated Fed-Batch` branch of `run_simulation`:
the growing result lists, the Python loop variables `y0`, `V0` and
`current_time_offset`, and the ghost list of harvest events. -/
structure RfbState where
  t : List ℚ
  X : List ℚ
  S : List ℚ
  P : List ℚ
  V : List ℚ
  y0 : BState
  V0 : ℚ
  off : ℚ
  events : List HarvestEvent

/-- One iteration of the harvest/refeed loop of the `Repeated Fed-Batch`
branch: read the state just before the harvest from the last recorded sample,
remove `harvest_volume_percent` of the volume, refeed the same volume of
fresh medium (volume-weighted concentration averages), append one sample for
the event at the current time offset, then integrate the next cycle on
`linspace 0 subsequent_harvest_time (10*subsequent_harvest_time)` and append
its rows after the first. -/
def rfb_cycle (solve : Solver) (kp : KinParams)
    (feed_substrate harvest_volume_percent : ℚ) (subsequent_harvest_time : ℕ)
    (st : RfbState) : RfbState :=
  let X_before := st.X.getLastD 0
  let S_before := st.S.getLastD 0
  let P_before := st.P.getLastD 0
  let V_before := st.V.getLastD 0
  let harvest_volume := V_before * (harvest_volume_percent / 100)
  let feed_volume := harvest_volume
  let V_after_harvest := V_before - harvest_volume
  let X_after_harvest := X_before
  let S_after_harvest := S_before
  let P_after_harvest := P_before
  let V_after_feed := V_after_harvest + feed_volume
  let S_after_feed := (S_after_harvest * V_after_harvest
      + feed_substrate * feed_volume) / V_after_feed
  let X_after_feed := X_after_harvest * V_after_harvest / V_after_feed
  let P_after_feed := P_after_harvest * V_after_harvest / V_after_feed
  let y0 : BState := ⟨X_after_feed, S_after_feed, P_after_feed⟩
  let V0 := V_after_feed
  let t1 := st.t ++ [st.off]
  let X1 := st.X ++ [X_after_feed]
  let S1 := st.S ++ [S_after_feed]
  let P1 := st.P ++ [P_after_feed]
  let V1 := st.V ++ [V0]
  let t_subsequent_cycle :=
    linspace 0 (subsequent_harvest_time : ℚ) (10 * subsequent_harvest_time)
  let sol := solve kp y0 t_subsequent_cycle
  { t := t1 ++ (t_subsequent_cycle.drop 1).map (· + st.off),
    X := X1 ++ (sol.drop 1).map (·.X),
    S := S1 ++ (sol.drop 1).map (·.S),
    P := P1 ++ (sol.drop 1).map (·.P),
    V := V1 ++ List.replicate (t_subsequent_cycle.drop 1).length V0,
    y0 := y0, V0 := V0,
    off := (t1 ++ (t_subsequent_cycle.drop 1).map (· + st.off)).getLastD 0,
    events := st.events ++ [⟨X_before, P_before, V_before, harvest_volume⟩] }

/-- The `Repeated Fed-Batch` branch of `run_simulation`: an initial batch
phase on `linspace 0 first_harvest_time (10*first_harvest_time)` followed by
`num_cycles` iterations of the harvest/refeed loop.  Returns the trajectory
together with the ghost list of harvest events. -/
def run_repeated_fed_batch (solve : Solver) (p : Params) :
    Traj × List HarvestEvent :=
  let kp : KinParams := ⟨p.mu_max, p.ks, p.Y_xs, p.Y_xp⟩
  let y0 : BState := ⟨p.initial_biomass, p.initial_substrate, 0⟩
  let V0 := p.initial_volume
  let t_first_cycle :=
    linspace 0 (p.first_harvest_time : ℚ) (10 * p.first_harvest_time)
  let sol := solve kp y0 t_first_cycle
  let st0 : RfbState :=
    { t := t_first_cycle, X := sol.map (·.X), S := sol.map (·.S),
      P := sol.map (·.P), V := List.replicate t_first_cycle.length V0,
      y0 := y0, V0 := V0, off := t_first_cycle.getLastD 0, events := [] }
  let stN := (rfb_cycle solve kp p.feed_substrate p.harvest_volume_percent
      p.subsequent_harvest_time)^[p.num_cycles] st0
  (⟨stN.t, stN.X, stN.S, stN.P, stN.V⟩, stN.events)

/-- The `Bleed-Perfusion` branch of `run_simulation`: one continuous interval
on `linspace 0 50 500` solved with the perfusion kinetics (crash tracker
initialised to `S_max = max Sf initial_substrate`), then truncation of the
trajectory at the first index where the substrate falls below
`0.008 * initial_substrate`.  The perfusion table has no volume column. -/
def run_perfusion (psolve : PerfSolver) (p : Params) : Traj :=
  let t_span := linspace 0 50 500
  let V := p.initial_volume
  let D := p.feed_rate / V
  let D_bleed := p.bleed_rate / V
  let Sf := p.feed_substrate
  let R := p.cell_retention
  let y0 : BState := ⟨p.initial_biomass, p.initial_substrate, 0⟩
  let tr0 : CrashTracker := ⟨max Sf p.initial_substrate, false⟩
  let sol := psolve ⟨⟨p.mu_max, p.ks, p.Y_xs, p.Y_xp⟩, D, Sf, R, D_bleed⟩ tr0 y0 t_span
  let Xs := sol.map (·.X)
  let Ss := sol.map (·.S)
  let Ps := sol.map (·.P)
  let stop_threshold := p.initial_substrate * (8 / 1000)
  match Ss.findIdx? (fun s => decide (s < stop_threshold)) with
  | some stop_index =>
      { t := t_span.take stop_index, X := Xs.take stop_index,
        S := Ss.take stop_index, P := Ps.take stop_index, V := [] }
  | none => { t := t_span, X := Xs, S := Ss, P := Ps, V := [] }

/-- `run_simulation`: mode dispatch over the four branches.  The variability
injection (`apply_variability`) is applied by the caller with its random
draws; theorems quantify over the (possibly perturbed) parameter set. -/
def run_simulation (solve : Solver) (psolve : PerfSolver) (mode : Mode)
    (p : Params) : Traj × List HarvestEvent :=
  match mode with
  | .batch => (run_batch solve p, [])
  | .fedBatch => (run_fed_batch solve p, [])
  | .repeatedFedBatch => run_repeated_fed_batch solve p
  | .bleedPerfusion => (run_perfusion psolve p, [])

/-- The harvest-event detection of the metrics calculator for repeated
fed-batch: the row indices whose volume change from the previous row is below
`-0.001` (`df['Volume (L)'].diff().fillna(0) < -0.001`; row 0 has change 0). -/
def harvest_event_idxs (V : List ℚ) : List ℕ :=
  (List.range V.length).filter
    (fun i => decide (1 ≤ i) && decide (V.getD i 0 - V.getD (i - 1) 0 < -(1/1000)))

/-- `calculate_productivity_metrics` from the source, over the trajectory
table, the mode and the parameters.  The metrics dictionary is modelled as an
association list in insertion order; an empty trajectory yields the empty
list.  `np.log` is an explicit function argument `logQ` (only the
`Max Growth Rate Achieved` entry uses it).  The product column is always
present in tables built by `run_simulation`, so the missing-product-column
fallback of the source is not modelled. -/
def calculate_productivity_metrics (logQ : ℚ → ℚ) (df : Traj) (mode : Mode)
    (p : Params) : List (String × ℚ) :=
  if df.t.isEmpty then []
  else
    let final_biomass := df.X.getLastD 0
    let initial_biomass := df.X.headD 0
    let total_time := df.t.getLastD 0
    let final_product := df.P.getLastD 0
    let initial_product := df.P.headD 0
    let modeMetrics : List (String × ℚ) :=
      match mode with
      | .batch =>
        [("Biomass Productivity (g/L/h)", (final_biomass - initial_biomass) / total_time),
         ("Product Productivity (g/L/h)", final_product / total_time),
         ("Total Biomass Produced (g)", final_biomass * p.initial_volume),
         ("Total Product Produced (g)", final_product * p.initial_volume)]
      | .fedBatch =>
        let final_volume := if df.V.isEmpty then p.initial_volume else df.V.getLastD 0
        [("Biomass Productivity (g/L/h)", (final_biomass - initial_biomass) / total_time),
         ("Product Productivity (g/L/h)", final_product / total_time),
         ("Total Biomass Produced (g)", final_biomass * final_volume),
         ("Total Product Produced (g)", final_product * final_volume)]
      | .repeatedFedBatch =>
        let idxs := harvest_event_idxs df.V
        let total_product_harvested := (idxs.map (fun i =>
            df.P.getD (i - 1) 0 * (df.V.getD (i - 1) 0 * (p.harvest_volume_percent / 100)))).sum
        let total_biomass_harvested := (idxs.map (fun i =>
            df.X.getD (i - 1) 0 * (df.V.getD (i - 1) 0 * (p.harvest_volume_percent / 100)))).sum
        let final_volume := df.V.getLastD 0
        let total_biomass_produced := total_biomass_harvested + final_biomass * final_volume
        let total_product_produced := total_product_harvested + final_product * final_volume
        [("Biomass Productivity (g/L/h)", total_biomass_produced / p.initial_volume / total_time),
         ("Product Productivity (g/L/h)", total_product_produced / p.initial_volume / total_time),
         ("Total Biomass Produced (g)", total_biomass_produced),
         ("Total Product Produced (g)", total_product_produced)]
      | .bleedPerfusion =>
        let D := p.feed_rate / p.initial_volume
        [("Biomass Productivity (g/L/h)", final_biomass * (p.bleed_rate / p.initial_volume)),
         ("Product Productivity (g/L/h)", final_product * D),
         ("Total Biomass Produced (g)", final_biomass * p.initial_volume),
         ("Total Product Produced (g)", final_product * p.initial_volume)]
    let initial_substrate := df.S.headD 0
    let final_substrate := df.S.getLastD 0
    let substrate_consumed := initial_substrate - final_substrate
    let effMetrics : List (String × ℚ) :=
      if 0 < substrate_consumed then
        [("Substrate to Biomass Efficiency", (final_biomass - initial_biomass) / substrate_consumed),
         ("Substrate to Product Efficiency", (final_product - initial_product) / substrate_consumed)]
      else
        [("Substrate to Biomass Efficiency", 0),
         ("Substrate to Product Efficiency", 0)]
    let growth_rates := List.zipWith (fun dlnX dt => dlnX / dt)
        (List.zipWith (fun x1 x2 => logQ x2 - logQ x1) df.X df.X.tail)
        (List.zipWith (fun t1 t2 => t2 - t1) df.t df.t.tail)
    let pos := growth_rates.filter (fun r => decide (0 < r))
    let maxGrowth : ℚ :=
      if 1 < df.t.length then (if pos.isEmpty then 0 else pos.foldr max 0) else 0
    modeMetrics ++ effMetrics ++ [("Max Growth Rate Achieved (1/h)", maxGrowth)]

/-- The harvest events "visible in the Volume column as a volume drop": row
indices whose recorded volume is strictly below the previous row's. -/
def visibleDrops (V : List ℚ) : List ℕ :=
  (List.range V.length).filter
    (fun i => decide (1 ≤ i) && decide (V.getD i 0 < V.getD (i - 1) 0))

/-- The repeated fed-batch biomass productivity as the specification words it:
the sum over all harvest events of (biomass concentration just before the
harvest times the harvested volume), plus the biomass remaining at the end,
divided by the initial volume and the total elapsed time.  Claim-side
definition, to be compared with `calculate_productivity_metrics`. -/
def spec_rfb_biomass_productivity (events : List HarvestEvent)
    (final_X final_volume initial_volume total_time : ℚ) : ℚ :=
  ((events.map (fun e => e.X_before * e.harvest_volume)).sum
    + final_X * final_volume) / initial_volume / total_time

/-- The repeated fed-batch product productivity as the specification words it
(see `spec_rfb_biomass_productivity`). -/
def spec_rfb_product_productivity (events : List HarvestEvent)
    (final_P final_volume initial_volume total_time : ℚ) : ℚ :=
  ((events.map (fun e => e.P_before * e.harvest_volume)).sum
    + final_P * final_volume) / initial_volume / total_time

/-- A concrete full parameter set (the default sliders of the app, with the
perfusion fields of the High-Density Perfusion scenario), used to instantiate
solver-quantified theorems. -/
def exampleParams : Params :=
  { initial_substrate := 50
    initial_biomass := 2
    initial_volume := 1
    mu_max := 2/5
    ks := 7/10
    Y_xs := 3/5
    Y_xp := 3/10
    feed_substrate := 300
    exchange_time := 25
    exchange_volume_percent := 20
    harvest_volume_percent := 50
    first_harvest_time := 24
    subsequent_harvest_time := 24
    num_cycles := 3
    feed_rate := 1/5
    bleed_rate := 1/50
    cell_retention := 19/20 }

lemma getLastD_eq_getD {α : Type} (l : List α) (d : α) :
    l.getLastD d = l.getD (l.length - 1) d := by
  rw [List.getLastD_eq_getLast?, List.getLast?_eq_getElem?, List.getD_eq_getElem?_getD]

lemma getD_replicate {α : Type} {n i : ℕ} (h : i < n) (a d : α) :
    (List.replicate n a).getD i d = a := by
  simp [List.getD_eq_getElem?_getD, List.getElem?_replicate, h]

lemma getLastD_replicate {α : Type} {n : ℕ} (h : 1 ≤ n) (a d : α) :
    (List.replicate n a).getLastD d = a := by
  rw [getLastD_eq_getD, List.length_replicate]
  exact getD_replicate (by omega) a d

lemma getD_map {α β : Type} (f : α → β) (l : List α) {i : ℕ} (h : i < l.length)
    (d : β) (d' : α) : (l.map f).getD i d = f (l.getD i d') := by
  have h' : i < (l.map f).length := by simpa using h
  rw [List.getD_eq_getElem?_getD, List.getElem?_eq_getElem h', List.getElem_map]
  rw [List.getD_eq_getElem?_getD, List.getElem?_eq_getElem h]
  rfl

lemma getLast?_of_ne_nil {α : Type} (l : List α) (d : α) (h : l ≠ []) :
    l.getLast? = some (l.getLastD d) := by
  cases hl : l.getLast? with
  | none => exact absurd (List.getLast?_eq_none_iff.mp hl) h
  | some y => rw [List.getLastD_eq_getLast?, hl]; rfl

lemma linspace_length (a b : ℚ) (n : ℕ) : (linspace a b n).length = n := by
  simp [linspace]

lemma linspace_getElem? (a b : ℚ) {n i : ℕ} (h : i < n) :
    (linspace a b n)[i]? = some (a + (b - a) * i / ((n : ℚ) - 1)) := by
  simp [linspace, List.getElem?_range h]

lemma linspace_getD (a b : ℚ) {n i : ℕ} (h : i < n) (d : ℚ) :
    (linspace a b n).getD i d = a + (b - a) * i / ((n : ℚ) - 1) := by
  simp [List.getD_eq_getElem?_getD, linspace_getElem? a b h]

lemma linspace_getLastD (a b : ℚ) {n : ℕ} (h : 2 ≤ n) (d : ℚ) :
    (linspace a b n).getLastD d = b := by
  rw [getLastD_eq_getD, linspace_length, linspace_getD a b (by omega)]
  have h1 : ((n - 1 : ℕ) : ℚ) = (n : ℚ) - 1 := by
    push_cast [Nat.cast_sub (by omega : 1 ≤ n)]
    ring
  have h2 : (n : ℚ) - 1 ≠ 0 := by
    have hn : (2:ℚ) ≤ (n:ℚ) := by exact_mod_cast h
    linarith
  rw [h1]
  field_simp

lemma linspace_ne_nil (a b : ℚ) {n : ℕ} (h : 1 ≤ n) : linspace a b n ≠ [] := by
  intro hc
  have := congrArg List.length hc
  rw [linspace_length] at this
  simp at this
  omega

lemma linspace_chain_le {a b : ℚ} (hab : a ≤ b) (n : ℕ) :
    List.Chain' (· ≤ ·) (linspace a b n) := by
  unfold linspace
  rw [List.chain'_map]
  match n with
  | 0 => simp
  | 1 =>
    rw [show List.range 1 = [0] from rfl]
    exact List.chain'_singleton _
  | (m+2) =>
    rw [show m + 2 = (m+1) + 1 from rfl, List.chain'_range_succ]
    intro i _
    have hc : (0:ℚ) < ((m+2 : ℕ) : ℚ) - 1 := by push_cast; linarith
    apply add_le_add_left
    rw [div_le_div_iff_of_pos_right hc]
    have : ((i:ℚ)) ≤ ((i:ℚ) + 1) := by linarith
    have hba : (0:ℚ) ≤ b - a := by linarith
    push_cast
    nlinarith

lemma linspace_chain_lt {a b : ℚ} (hab : a < b) (n : ℕ) :
    List.Chain' (· < ·) (linspace a b n) := by
  unfold linspace
  rw [List.chain'_map]
  match n with
  | 0 => simp
  | 1 =>
    rw [show List.range 1 = [0] from rfl]
    exact List.chain'_singleton _
  | (m+2) =>
    rw [show m + 2 = (m+1) + 1 from rfl, List.chain'_range_succ]
    intro i _
    have hc : (0:ℚ) < ((m+2 : ℕ) : ℚ) - 1 := by push_cast; linarith
    apply add_lt_add_left
    rw [div_lt_div_iff_of_pos_right hc]
    have hba : (0:ℚ) < b - a := by linarith
    push_cast
    nlinarith

lemma convex_between (a b f : ℚ) (h0 : 0 ≤ f) (h1 : f ≤ 1) :
    min a b ≤ (1 - f) * a + f * b ∧ (1 - f) * a + f * b ≤ max a b := by
  rcases le_total a b with hab | hab
  · rw [min_eq_left hab, max_eq_right hab]
    constructor <;> nlinarith
  · rw [min_eq_right hab, max_eq_left hab]
    constructor <;> nlinarith

lemma findIdx?_eq_none_of_all_false {α : Type} (p : α → Bool) (l : List α)
    (h : ∀ x ∈ l, p x = false) : ∀ i, l.findIdx? p i = none := by
  induction l with
  | nil => intro i; rfl
  | cons a l ih =>
    intro i
    rw [List.findIdx?_cons, h a (List.mem_cons_self a l)]
    simp only [Bool.false_eq_true, if_false]
    exact ih (fun x hx => h x (List.mem_cons_of_mem a hx)) (i + 1)

lemma visibleDrops_replicate (n : ℕ) (a : ℚ) :
    visibleDrops (List.replicate n a) = [] := by
  unfold visibleDrops
  rw [List.length_replicate, List.filter_eq_nil_iff]
  intro i hi
  rw [List.mem_range] at hi
  rw [getD_replicate hi, getD_replicate (show i - 1 < n by omega)]
  simp

lemma harvest_event_idxs_replicate (n : ℕ) (a : ℚ) :
    harvest_event_idxs (List.replicate n a) = [] := by
  unfold harvest_event_idxs
  rw [List.length_replicate, List.filter_eq_nil_iff]
  intro i hi
  rw [List.mem_range] at hi
  rw [getD_replicate hi, getD_replicate (show i - 1 < n by omega)]
  simp only [sub_self, Bool.and_eq_true, decide_eq_true_eq, not_and]
  intro _
  norm_num

lemma rfb_cycle_volume (solve : Solver) (kp : KinParams) (Sf hvp : ℚ) (sh : ℕ)
    (Vinit : ℚ) (st : RfbState)
    (h : ∃ m, 1 ≤ m ∧ st.V = List.replicate m Vinit) :
    ∃ m, 1 ≤ m ∧ (rfb_cycle solve kp Sf hvp sh st).V = List.replicate m Vinit := by
  obtain ⟨m, hm, hV⟩ := h
  have hVb : (List.replicate m Vinit).getLastD (0:ℚ) = Vinit := getLastD_replicate hm _ _
  have hvf : Vinit - Vinit * (hvp / 100) + Vinit * (hvp / 100) = Vinit := by ring
  refine ⟨m + 1 + ((linspace 0 (sh:ℚ) (10*sh)).drop 1).length, by omega, ?_⟩
  simp only [rfb_cycle]
  rw [hV, hVb, hvf]
  rw [List.replicate_add, List.replicate_add, List.replicate_one, List.append_assoc]

lemma rfb_cycle_events_length (solve : Solver) (kp : KinParams) (Sf hvp : ℚ)
    (sh : ℕ) (st : RfbState) :
    (rfb_cycle solve kp Sf hvp sh st).events.length = st.events.length + 1 := by
  simp [rfb_cycle]

lemma rfb_cycle_t_ne_nil (solve : Solver) (kp : KinParams) (Sf hvp : ℚ)
    (sh : ℕ) (st : RfbState) :
    (rfb_cycle solve kp Sf hvp sh st).t ≠ [] := by
  simp [rfb_cycle]

lemma rfb_volume_replicate (solve : Solver) (p : Params)
    (hfh : 1 ≤ p.first_harvest_time) :
    ∃ m, 1 ≤ m ∧ (run_repeated_fed_batch solve p).1.V
        = List.replicate m p.initial_volume := by
  have key : ∀ (k : ℕ) (st : RfbState),
      (∃ m, 1 ≤ m ∧ st.V = List.replicate m p.initial_volume) →
      ∃ m, 1 ≤ m ∧ ((rfb_cycle solve ⟨p.mu_max, p.ks, p.Y_xs, p.Y_xp⟩
          p.feed_substrate p.harvest_volume_percent p.subsequent_harvest_time)^[k] st).V
        = List.replicate m p.initial_volume := by
    intro k
    induction k with
    | zero => intro st h; exact h
    | succ k ih =>
      intro st h
      rw [Function.iterate_succ_apply']
      exact rfb_cycle_volume _ _ _ _ _ _ _ (ih st h)
  simp only [run_repeated_fed_batch]
  apply key
  refine ⟨(linspace 0 (p.first_harvest_time:ℚ) (10*p.first_harvest_time)).length, ?_, rfl⟩
  rw [linspace_length]
  omega

lemma rfb_events_length (solve : Solver) (p : Params) :
    (run_repeated_fed_batch solve p).2.length = p.num_cycles := by
  have key : ∀ (k : ℕ) (st : RfbState),
      ((rfb_cycle solve ⟨p.mu_max, p.ks, p.Y_xs, p.Y_xp⟩
          p.feed_substrate p.harvest_volume_percent p.subsequent_harvest_time)^[k] st).events.length
        = st.events.length + k := by
    intro k
    induction k with
    | zero => intro st; simp
    | succ k ih =>
      intro st
      rw [Function.iterate_succ_apply', rfb_cycle_events_length, ih]
      omega
  simp only [run_repeated_fed_batch]
  rw [key]
  simp

lemma rfb_t_ne_nil (solve : Solver) (p : Params)
    (hfh : 1 ≤ p.first_harvest_time) :
    (run_repeated_fed_batch solve p).1.t ≠ [] := by
  simp only [run_repeated_fed_batch]
  cases p.num_cycles with
  | zero =>
    rw [Function.iterate_zero_apply]
    exact linspace_ne_nil _ _ (by omega)
  | succ k =>
    rw [Function.iterate_succ_apply']
    exact rfb_cycle_t_ne_nil _ _ _ _ _ _

/-- C10: in every repeated fed-batch run the refeed volume equals the
harvested volume, so the recorded `Volume (L)` column is constant and equal
to the initial volume at every sample — no sample-to-sample volume decrease
ever appears in the returned trajectory.  Quantified over the ODE solver. -/
theorem rfb_volume_column_constant (solve : Solver) (p : Params)
    (hfh : 1 ≤ p.first_harvest_time) :
    (run_repeated_fed_batch solve p).1.V
      = List.replicate ((run_repeated_fed_batch solve p).1.V.length)
          p.initial_volume := by
  obtain ⟨m, _, hV⟩ := rfb_volume_replicate solve p hfh
  rw [hV, List.length_replicate]

/-- Witness for `rfb_volume_column_constant` at a concrete run. -/
theorem rfb_volume_column_constant_witness :
    1 ≤ exampleParams.first_harvest_time
    ∧ (run_repeated_fed_batch constSolver exampleParams).1.V
        = List.replicate
            ((run_repeated_fed_batch constSolver exampleParams).1.V.length)
            exampleParams.initial_volume :=
  ⟨by decide, rfb_volume_column_constant constSolver exampleParams (by decide)⟩

/-- C3, as stated, is false: with `num_cycles = 3` (and any parameters) the
returned trajectory contains no volume drop at all — the harvest/refeed event
restores the volume exactly, so the number of samples whose recorded volume
is below the previous sample's is `0`, not `num_cycles`. -/
theorem rfb_harvest_drop_count_claim_false :
    ¬ ((visibleDrops (run_repeated_fed_batch constSolver exampleParams).1.V).length
        = exampleParams.num_cycles) := by
  obtain ⟨m, _, hV⟩ := rfb_volume_replicate constSolver exampleParams (by decide)
  rw [hV, visibleDrops_replicate]
  decide

/-- C3, amended to the code: every repeated fed-batch run performs exactly
`num_cycles` harvest-then-refeed events (the ghost event list has length
`num_cycles`), but none of them is visible in the `Volume (L)` column as a
volume drop: the refeed volume equals the harvested volume, so the count of
volume-drop samples is `0`. -/
theorem rfb_harvest_events_not_visible (solve : Solver) (p : Params)
    (hfh : 1 ≤ p.first_harvest_time) :
    (visibleDrops (run_repeated_fed_batch solve p).1.V).length = 0
    ∧ (run_repeated_fed_batch solve p).2.length = p.num_cycles := by
  constructor
  · obtain ⟨m, _, hV⟩ := rfb_volume_replicate solve p hfh
    rw [hV, visibleDrops_replicate]
    rfl
  · exact rfb_events_length solve p

/-- Witness for `rfb_harvest_events_not_visible` at a concrete run. -/
theorem rfb_harvest_events_not_visible_witness :
    1 ≤ exampleParams.first_harvest_time
    ∧ ((visibleDrops (run_repeated_fed_batch constSolver exampleParams).1.V).length = 0
       ∧ (run_repeated_fed_batch constSolver exampleParams).2.length
           = exampleParams.num_cycles) :=
  ⟨by decide, rfb_harvest_events_not_visible constSolver exampleParams (by decide)⟩

lemma getLastD_default_irrelevant {α : Type} (l : List α) (h : l ≠ []) (d d' : α) :
    l.getLastD d = l.getLastD d' := by
  rw [List.getLastD_eq_getLast?, getLast?_of_ne_nil l d' h]
  rfl

lemma getLastD_append_right {α : Type} (l1 l2 : List α) (d : α) (h : l2 ≠ []) :
    (l1 ++ l2).getLastD d = l2.getLastD d := by
  rw [List.getLastD_eq_getLast?, List.getLast?_append, getLast?_of_ne_nil l2 d h]
  rfl

lemma getLastD_map {α β : Type} (f : α → β) (l : List α) (h : l ≠ []) (d : β) (d' : α) :
    (l.map f).getLastD d = f (l.getLastD d') := by
  cases l with
  | nil => exact absurd rfl h
  | cons a l' =>
    rw [getLastD_eq_getD, getLastD_eq_getD, List.length_map]
    exact getD_map f _ (by simp) d d'

lemma getLastD_drop_one {α : Type} (l : List α) (d : α) (h : 2 ≤ l.length) :
    (l.drop 1).getLastD d = l.getLastD d := by
  cases l with
  | nil => simp at h
  | cons b l' =>
    have hl' : l' ≠ [] := by
      intro hc
      rw [hc] at h
      simp at h
    rw [List.drop_one, List.tail_cons, List.getLastD_cons]
    exact getLastD_default_irrelevant l' hl' d b

lemma map_ne_nil {α β : Type} (f : α → β) (l : List α) (h : l ≠ []) :
    l.map f ≠ [] := by
  intro hc
  exact h (List.map_eq_nil_iff.mp hc)

lemma rfb_metrics_productivity (logQ : ℚ → ℚ) (solve : Solver) (p : Params)
    (hfh : 1 ≤ p.first_harvest_time) :
    List.lookup "Biomass Productivity (g/L/h)"
        (calculate_productivity_metrics logQ (run_repeated_fed_batch solve p).1
          Mode.repeatedFedBatch p)
      = some ((run_repeated_fed_batch solve p).1.X.getLastD 0 * p.initial_volume
          / p.initial_volume / (run_repeated_fed_batch solve p).1.t.getLastD 0)
    ∧ List.lookup "Product Productivity (g/L/h)"
        (calculate_productivity_metrics logQ (run_repeated_fed_batch solve p).1
          Mode.repeatedFedBatch p)
      = some ((run_repeated_fed_batch solve p).1.P.getLastD 0 * p.initial_volume
          / p.initial_volume / (run_repeated_fed_batch solve p).1.t.getLastD 0) := by
  obtain ⟨m, hm, hV⟩ := rfb_volume_replicate solve p hfh
  have ht : ¬ ((run_repeated_fed_batch solve p).1.t.isEmpty = true) := by
    simp only [List.isEmpty_iff]
    exact rfb_t_ne_nil solve p hfh
  have hVl : (run_repeated_fed_batch solve p).1.V.getLastD 0 = p.initial_volume := by
    rw [hV]
    exact getLastD_replicate hm _ _
  have hidx : harvest_event_idxs (run_repeated_fed_batch solve p).1.V = [] := by
    rw [hV]
    exact harvest_event_idxs_replicate _ _
  unfold calculate_productivity_metrics
  rw [if_neg ht]
  simp only [hidx, hVl, List.map_nil, List.sum_nil, zero_add]
  constructor <;> simp [List.lookup]

/-- Concrete repeated fed-batch parameters for counterexamples: one cycle,
first and subsequent cycle lengths of 1 h, 50% harvest, 2 L. -/
def pC4 : Params :=
  { initial_substrate := 15
    initial_biomass := 1
    initial_volume := 2
    mu_max := 7/20
    ks := 4/5
    Y_xs := 11/20
    Y_xp := 1/4
    feed_substrate := 150
    exchange_time := 25
    exchange_volume_percent := 20
    harvest_volume_percent := 50
    first_harvest_time := 1
    subsequent_harvest_time := 1
    num_cycles := 1
    feed_rate := 1/5
    bleed_rate := 1/50
    cell_retention := 19/20 }

lemma pC4_run_events :
    (run_repeated_fed_batch constSolver pC4).2
      = [{ X_before := 1, P_before := 0, V_before := 2,
           harvest_volume := 2 * (pC4.harvest_volume_percent / 100) }] := by
  have hts : linspace 0 (pC4.first_harvest_time : ℚ) (10 * pC4.first_harvest_time) ≠ [] :=
    linspace_ne_nil _ _ (by decide)
  simp only [run_repeated_fed_batch, constSolver]
  rw [show pC4.num_cycles = 1 from rfl, Function.iterate_one]
  simp only [rfb_cycle]
  rw [getLastD_map _ _ (map_ne_nil _ _ hts) 0 (⟨0, 0, 0⟩ : BState),
      getLastD_map _ _ hts _ (0 : ℚ),
      getLastD_map _ _ (map_ne_nil _ _ hts) 0 (⟨0, 0, 0⟩ : BState),
      getLastD_map _ _ hts _ (0 : ℚ),
      getLastD_replicate (by rw [linspace_length]; decide) _ _]
  simp [pC4]

lemma pC4_run_total_time :
    (run_repeated_fed_batch constSolver pC4).1.t.getLastD 0 = 2 := by
  have h10 : (10 : ℕ) = 10 * pC4.first_harvest_time := by decide
  have h10s : (10 : ℕ) = 10 * pC4.subsequent_harvest_time := by decide
  have hts : linspace 0 (pC4.subsequent_harvest_time : ℚ) (10 * pC4.subsequent_harvest_time) ≠ [] :=
    linspace_ne_nil _ _ (by decide)
  have hlen : 2 ≤ (linspace 0 (pC4.subsequent_harvest_time : ℚ) (10 * pC4.subsequent_harvest_time)).length := by
    rw [linspace_length]
    decide
  have hdrop : (linspace 0 (pC4.subsequent_harvest_time : ℚ) (10 * pC4.subsequent_harvest_time)).drop 1 ≠ [] := by
    apply List.ne_nil_of_length_pos
    rw [List.length_drop, linspace_length]
    decide
  simp only [run_repeated_fed_batch]
  rw [show pC4.num_cycles = 1 from rfl, Function.iterate_one]
  simp only [rfb_cycle]
  rw [getLastD_append_right _ _ _ (map_ne_nil _ _ hdrop),
      getLastD_map _ _ hdrop 0 (0 : ℚ),
      getLastD_drop_one _ _ hlen,
      linspace_getLastD _ _ (by decide) 0,
      linspace_getLastD _ _ (by decide) 0]
  norm_num [pC4]

/-- C4, as stated, is false: at the concrete one-cycle repeated fed-batch run
below, the harvested biomass (1 g/L × 1 L removed at the harvest) is not
counted by the metrics calculator — it detects harvest events through volume
drops, and the recorded volume never drops — so the biomass productivity
metric differs from the specification's harvest-accounting formula. -/
theorem rfb_productivity_claim_false :
    ¬ (List.lookup "Biomass Productivity (g/L/h)"
          (calculate_productivity_metrics id (run_repeated_fed_batch constSolver pC4).1
            Mode.repeatedFedBatch pC4)
        = some (spec_rfb_biomass_productivity (run_repeated_fed_batch constSolver pC4).2
            ((run_repeated_fed_batch constSolver pC4).1.X.getLastD 0)
            ((run_repeated_fed_batch constSolver pC4).1.V.getLastD 0)
            pC4.initial_volume ((run_repeated_fed_batch constSolver pC4).1.t.getLastD 0))
      ∧ List.lookup "Product Productivity (g/L/h)"
          (calculate_productivity_metrics id (run_repeated_fed_batch constSolver pC4).1
            Mode.repeatedFedBatch pC4)
        = some (spec_rfb_product_productivity (run_repeated_fed_batch constSolver pC4).2
            ((run_repeated_fed_batch constSolver pC4).1.P.getLastD 0)
            ((run_repeated_fed_batch constSolver pC4).1.V.getLastD 0)
            pC4.initial_volume ((run_repeated_fed_batch constSolver pC4).1.t.getLastD 0))) := by
  intro hcl
  obtain ⟨h1, _⟩ := hcl
  rw [(rfb_metrics_productivity id constSolver pC4 (by decide)).1] at h1
  have heq := Option.some.inj h1
  obtain ⟨m, hm, hV⟩ := rfb_volume_replicate constSolver pC4 (by decide)
  have hVl : (run_repeated_fed_batch constSolver pC4).1.V.getLastD 0 = pC4.initial_volume := by
    rw [hV]
    exact getLastD_replicate hm _ _
  rw [spec_rfb_biomass_productivity, pC4_run_events, pC4_run_total_time, hVl] at heq
  norm_num [pC4] at heq
  linarith [heq]

/-- C4, amended to the code: the repeated fed-batch productivity metrics sum
the harvested amounts over the harvest events the metrics calculator detects
through volume drops; the recorded volume never drops, so the harvested sums
are zero and each productivity metric equals only (final concentration ×
final volume = initial volume) / initial volume / total elapsed time. -/
theorem rfb_productivity_metric_final_only (logQ : ℚ → ℚ) (solve : Solver)
    (p : Params) (hfh : 1 ≤ p.first_harvest_time) :
    List.lookup "Biomass Productivity (g/L/h)"
        (calculate_productivity_metrics logQ (run_repeated_fed_batch solve p).1
          Mode.repeatedFedBatch p)
      = some ((run_repeated_fed_batch solve p).1.X.getLastD 0 * p.initial_volume
          / p.initial_volume / (run_repeated_fed_batch solve p).1.t.getLastD 0)
    ∧ List.lookup "Product Productivity (g/L/h)"
        (calculate_productivity_metrics logQ (run_repeated_fed_batch solve p).1
          Mode.repeatedFedBatch p)
      = some ((run_repeated_fed_batch solve p).1.P.getLastD 0 * p.initial_volume
          / p.initial_volume / (run_repeated_fed_batch solve p).1.t.getLastD 0) :=
  rfb_metrics_productivity logQ solve p hfh

/-- Witness for `rfb_productivity_metric_final_only` at a concrete run. -/
theorem rfb_productivity_metric_final_only_witness :
    1 ≤ pC4.first_harvest_time
    ∧ (List.lookup "Biomass Productivity (g/L/h)"
          (calculate_productivity_metrics id (run_repeated_fed_batch constSolver pC4).1
            Mode.repeatedFedBatch pC4)
        = some ((run_repeated_fed_batch constSolver pC4).1.X.getLastD 0 * pC4.initial_volume
            / pC4.initial_volume / (run_repeated_fed_batch constSolver pC4).1.t.getLastD 0)
       ∧ List.lookup "Product Productivity (g/L/h)"
          (calculate_productivity_metrics id (run_repeated_fed_batch constSolver pC4).1
            Mode.repeatedFedBatch pC4)
        = some ((run_repeated_fed_batch constSolver pC4).1.P.getLastD 0 * pC4.initial_volume
            / pC4.initial_volume / (run_repeated_fed_batch constSolver pC4).1.t.getLastD 0)) :=
  ⟨by decide, rfb_productivity_metric_final_only id constSolver pC4 (by decide)⟩

lemma perfusion_metrics_shape (logQ : ℚ → ℚ) (tr : Traj) (p : Params)
    (h : tr.t ≠ []) :
    List.lookup "Biomass Productivity (g/L/h)"
        (calculate_productivity_metrics logQ tr Mode.bleedPerfusion p)
      = some (tr.X.getLastD 0 * (p.bleed_rate / p.initial_volume))
    ∧ List.lookup "Product Productivity (g/L/h)"
        (calculate_productivity_metrics logQ tr Mode.bleedPerfusion p)
      = some (tr.P.getLastD 0 * (p.feed_rate / p.initial_volume)) := by
  have ht : ¬ (tr.t.isEmpty = true) := by
    simp only [List.isEmpty_iff]
    exact h
  unfold calculate_productivity_metrics
  rw [if_neg ht]
  constructor <;> simp [List.lookup]

set_option maxRecDepth 4000 in
lemma perfusion_run_concrete :
    (run_perfusion constPerfSolver exampleParams).t = linspace 0 50 500
    ∧ (run_perfusion constPerfSolver exampleParams).X.getLastD 0 = 2
    ∧ (run_perfusion constPerfSolver exampleParams).P.getLastD 0 = 1 := by
  have hts : linspace (0:ℚ) 50 500 ≠ [] := linspace_ne_nil _ _ (by omega)
  have hnone : (((linspace (0:ℚ) 50 500).map
        (fun _ => (⟨2, 50, 1⟩ : BState))).map (fun x => x.S)).findIdx?
        (fun s => decide (s < exampleParams.initial_substrate * (8 / 1000))) 0 = none := by
    apply findIdx?_eq_none_of_all_false
    intro x hx
    simp only [List.mem_map] at hx
    obtain ⟨y, ⟨z, _, rfl⟩, rfl⟩ := hx
    exact decide_eq_false (by norm_num [exampleParams])
  have hrun : run_perfusion constPerfSolver exampleParams =
      { t := linspace 0 50 500,
        X := ((linspace (0:ℚ) 50 500).map (fun _ => (⟨2, 50, 1⟩ : BState))).map (fun x => x.X),
        S := ((linspace (0:ℚ) 50 500).map (fun _ => (⟨2, 50, 1⟩ : BState))).map (fun x => x.S),
        P := ((linspace (0:ℚ) 50 500).map (fun _ => (⟨2, 50, 1⟩ : BState))).map (fun x => x.P),
        V := [] } := by
    unfold run_perfusion
    simp only [constPerfSolver]
    rw [hnone]
  rw [hrun]
  refine ⟨rfl, ?_, ?_⟩
  · rw [getLastD_map _ _ (map_ne_nil _ _ hts) 0 (⟨0, 0, 0⟩ : BState),
        getLastD_map _ _ hts _ (0 : ℚ)]
  · rw [getLastD_map _ _ (map_ne_nil _ _ hts) 0 (⟨0, 0, 0⟩ : BState),
        getLastD_map _ _ hts _ (0 : ℚ)]

/-- C5, as stated, is false in its product part: at the concrete perfusion run
below (feed 0.2 L/h, bleed 0.02 L/h, volume 1 L) the code's product
productivity metric is `final_P * (feed_rate/volume)`, not
`final_P * ((feed_rate + bleed_rate)/volume)` as claimed. -/
theorem perfusion_product_metric_claim_false :
    ¬ (List.lookup "Biomass Productivity (g/L/h)"
          (calculate_productivity_metrics id (run_perfusion constPerfSolver exampleParams)
            Mode.bleedPerfusion exampleParams)
        = some ((run_perfusion constPerfSolver exampleParams).X.getLastD 0
            * (exampleParams.bleed_rate / exampleParams.initial_volume))
      ∧ List.lookup "Product Productivity (g/L/h)"
          (calculate_productivity_metrics id (run_perfusion constPerfSolver exampleParams)
            Mode.bleedPerfusion exampleParams)
        = some ((run_perfusion constPerfSolver exampleParams).P.getLastD 0
            * ((exampleParams.feed_rate + exampleParams.bleed_rate)
                / exampleParams.initial_volume))) := by
  intro hcl
  obtain ⟨hct, _, hP⟩ := perfusion_run_concrete
  obtain ⟨_, h2⟩ := hcl
  have hne : (run_perfusion constPerfSolver exampleParams).t ≠ [] := by
    rw [hct]
    exact linspace_ne_nil _ _ (by omega)
  rw [(perfusion_metrics_shape id _ exampleParams hne).2] at h2
  have heq := Option.some.inj h2
  rw [hP] at heq
  norm_num [exampleParams] at heq

/-- C5, amended to the code: for every finished (nonempty) perfusion
trajectory, the biomass productivity metric is the final biomass
concentration times the bleed dilution rate (`bleed_rate/volume`), and the
product productivity metric is the final product concentration times the
feed dilution rate (`feed_rate/volume`) — not the total (feed + bleed)
dilution rate.  In particular, with `feed_rate=0.2`, `bleed_rate=0.02`,
`initial_volume=1.0` the biomass metric equals `final_X * 0.02`. -/
theorem perfusion_productivity_rates (logQ : ℚ → ℚ) (tr : Traj) (p : Params)
    (h : tr.t ≠ []) :
    List.lookup "Biomass Productivity (g/L/h)"
        (calculate_productivity_metrics logQ tr Mode.bleedPerfusion p)
      = some (tr.X.getLastD 0 * (p.bleed_rate / p.initial_volume))
    ∧ List.lookup "Product Productivity (g/L/h)"
        (calculate_productivity_metrics logQ tr Mode.bleedPerfusion p)
      = some (tr.P.getLastD 0 * (p.feed_rate / p.initial_volume)) :=
  perfusion_metrics_shape logQ tr p h

/-- Witness for `perfusion_productivity_rates` at a concrete one-sample
trajectory and the concrete scenario parameters (bleed dilution `0.02`). -/
theorem perfusion_productivity_rates_witness :
    (Traj.mk [1] [2] [1] [1] []).t ≠ []
    ∧ (List.lookup "Biomass Productivity (g/L/h)"
          (calculate_productivity_metrics id ⟨[1], [2], [1], [1], []⟩
            Mode.bleedPerfusion exampleParams)
        = some ((Traj.mk [1] [2] [1] [1] []).X.getLastD 0
            * (exampleParams.bleed_rate / exampleParams.initial_volume))
       ∧ List.lookup "Product Productivity (g/L/h)"
          (calculate_productivity_metrics id ⟨[1], [2], [1], [1], []⟩
            Mode.bleedPerfusion exampleParams)
        = some ((Traj.mk [1] [2] [1] [1] []).P.getLastD 0
            * (exampleParams.feed_rate / exampleParams.initial_volume))) :=
  ⟨by simp, perfusion_productivity_rates id ⟨[1], [2], [1], [1], []⟩ exampleParams (by simp)⟩

/-- C9: for every empty trajectory (zero samples), in every mode and for
every parameter set, the metrics calculation detects the emptiness and
returns the well-defined no-metrics result (the empty record) without
indexing into the empty table. -/
theorem metrics_empty_trajectory (logQ : ℚ → ℚ) (tr : Traj) (mode : Mode)
    (p : Params) (h : tr.t = []) :
    calculate_productivity_metrics logQ tr mode p = [] := by
  unfold calculate_productivity_metrics
  rw [if_pos (by simp [List.isEmpty_iff, h])]

/-- Witness for `metrics_empty_trajectory` on the empty table. -/
theorem metrics_empty_trajectory_witness :
    (Traj.mk [] [] [] [] []).t = []
    ∧ calculate_productivity_metrics id ⟨[], [], [], [], []⟩ Mode.batch exampleParams = [] :=
  ⟨rfl, metrics_empty_trajectory id ⟨[], [], [], [], []⟩ Mode.batch exampleParams rfl⟩

/-- C8: the per-run variability injection always returns parameters inside
the valid domains, regardless of the random draws: `mu_max ≥ 0.01`,
`ks ≥ 0.01`, `Y_xs ∈ [0.1, 1.0]`, `Y_xp ∈ [0.01, 1.0]`. -/
theorem variability_clamped (p : Params) (r_mu r_ks r_yxs r_yxp : ℚ) :
    1/100 ≤ (apply_variability p r_mu r_ks r_yxs r_yxp).mu_max
    ∧ 1/100 ≤ (apply_variability p r_mu r_ks r_yxs r_yxp).ks
    ∧ (1/10 ≤ (apply_variability p r_mu r_ks r_yxs r_yxp).Y_xs
       ∧ (apply_variability p r_mu r_ks r_yxs r_yxp).Y_xs ≤ 1)
    ∧ (1/100 ≤ (apply_variability p r_mu r_ks r_yxs r_yxp).Y_xp
       ∧ (apply_variability p r_mu r_ks r_yxs r_yxp).Y_xp ≤ 1) := by
  simp only [apply_variability]
  refine ⟨le_max_left _ _, le_max_left _ _, ⟨le_max_left _ _, ?_⟩,
    ⟨le_max_left _ _, ?_⟩⟩
  · exact max_le (by norm_num) (min_le_left _ _)
  · exact max_le (by norm_num) (min_le_left _ _)

lemma event_index_getD {α : Type} (l rest : List α) (x d : α) (h : l.length = 250) :
    ((l ++ [x]) ++ rest).getD 250 d = x
    ∧ ((l ++ [x]) ++ rest).getD 249 d = l.getD 249 d := by
  have h1 : (l ++ [x]).length = 251 := by simp [h]
  constructor
  · rw [List.getD_append _ _ _ _ (by omega),
        List.getD_append_right _ _ _ _ (by omega), h]
    simp
  · rw [List.getD_append _ _ _ _ (by omega), List.getD_append _ _ _ _ (by omega)]

/-- C6: the fed-batch exchange event.  For every fed-batch run (any solver
that returns one state per grid time) with exchange fraction
`f = exchange_volume_percent/100 ∈ [0,1]`, the inserted event sample (row
250) satisfies `X_after = (1-f)*X_before`, `P_after = (1-f)*P_before`,
`S_after = (1-f)*S_before + f*feed_substrate` (hence `S_after` lies between
`S_before` and `feed_substrate`), and the recorded volume is unchanged,
where row 249 is the sample ending the first integration interval. -/
theorem fed_batch_exchange_event (solve : Solver) (p : Params)
    (hlen : ∀ kp y0 ts, (solve kp y0 ts).length = ts.length)
    (hf0 : 0 ≤ p.exchange_volume_percent) (hf1 : p.exchange_volume_percent ≤ 100) :
    (run_fed_batch solve p).X.getD 250 0
        = (1 - p.exchange_volume_percent / 100) * (run_fed_batch solve p).X.getD 249 0
    ∧ (run_fed_batch solve p).P.getD 250 0
        = (1 - p.exchange_volume_percent / 100) * (run_fed_batch solve p).P.getD 249 0
    ∧ (run_fed_batch solve p).S.getD 250 0
        = (1 - p.exchange_volume_percent / 100) * (run_fed_batch solve p).S.getD 249 0
          + (p.exchange_volume_percent / 100) * p.feed_substrate
    ∧ min ((run_fed_batch solve p).S.getD 249 0) p.feed_substrate
        ≤ (run_fed_batch solve p).S.getD 250 0
    ∧ (run_fed_batch solve p).S.getD 250 0
        ≤ max ((run_fed_batch solve p).S.getD 249 0) p.feed_substrate
    ∧ (run_fed_batch solve p).V.getD 250 0 = (run_fed_batch solve p).V.getD 249 0 := by
  have hf0' : 0 ≤ p.exchange_volume_percent / 100 := by positivity
  have hf1' : p.exchange_volume_percent / 100 ≤ 1 := by
    rw [div_le_one (by norm_num)]
    exact hf1
  have hsb : (solve ⟨p.mu_max, p.ks, p.Y_xs, p.Y_xp⟩
      ⟨p.initial_biomass, p.initial_substrate, 0⟩
      (linspace 0 p.exchange_time 250)).length = 250 := by
    rw [hlen, linspace_length]
  have hmaplen : ∀ f : BState → ℚ, ((solve ⟨p.mu_max, p.ks, p.Y_xs, p.Y_xp⟩
      ⟨p.initial_biomass, p.initial_substrate, 0⟩
      (linspace 0 p.exchange_time 250)).map f).length = 250 := by
    intro f
    rw [List.length_map, hsb]
  have hlast : (solve ⟨p.mu_max, p.ks, p.Y_xs, p.Y_xp⟩
      ⟨p.initial_biomass, p.initial_substrate, 0⟩
      (linspace 0 p.exchange_time 250)).getLastD
        ⟨p.initial_biomass, p.initial_substrate, 0⟩
      = (solve ⟨p.mu_max, p.ks, p.Y_xs, p.Y_xp⟩
          ⟨p.initial_biomass, p.initial_substrate, 0⟩
          (linspace 0 p.exchange_time 250)).getD 249
            ⟨p.initial_biomass, p.initial_substrate, 0⟩ := by
    rw [getLastD_eq_getD, hsb]
  simp only [run_fed_batch]
  rw [(event_index_getD _ _ _ _ (hmaplen _)).1, (event_index_getD _ _ _ _ (hmaplen _)).2,
      (event_index_getD _ _ _ _ (hmaplen _)).1, (event_index_getD _ _ _ _ (hmaplen _)).2,
      (event_index_getD _ _ _ _ (hmaplen _)).1, (event_index_getD _ _ _ _ (hmaplen _)).2,
      (event_index_getD _ _ _ _ (by rw [List.length_replicate, linspace_length])).1,
      (event_index_getD _ _ _ _ (by rw [List.length_replicate, linspace_length])).2,
      hlast,
      getD_map _ _ (by omega) 0 (⟨p.initial_biomass, p.initial_substrate, 0⟩ : BState),
      getD_map _ _ (by omega) 0 (⟨p.initial_biomass, p.initial_substrate, 0⟩ : BState),
      getD_map _ _ (by omega) 0 (⟨p.initial_biomass, p.initial_substrate, 0⟩ : BState)]
  have h249V : (List.replicate (linspace 0 p.exchange_time 250).length
      p.initial_volume).getD 249 (0:ℚ) = p.initial_volume :=
    getD_replicate (by rw [linspace_length]; omega) _ _
  refine ⟨rfl, rfl, rfl, ?_, ?_, h249V.symm⟩
  · exact (convex_between _ p.feed_substrate _ hf0' hf1').1
  · exact (convex_between _ p.feed_substrate _ hf0' hf1').2

/-- Witness for `fed_batch_exchange_event` at the frozen-state solver and the
default fed-batch parameters. -/
theorem fed_batch_exchange_event_witness :
    (0 ≤ exampleParams.exchange_volume_percent)
    ∧ (exampleParams.exchange_volume_percent ≤ 100)
    ∧ ((run_fed_batch constSolver exampleParams).X.getD 250 0
        = (1 - exampleParams.exchange_volume_percent / 100)
            * (run_fed_batch constSolver exampleParams).X.getD 249 0
      ∧ (run_fed_batch constSolver exampleParams).P.getD 250 0
        = (1 - exampleParams.exchange_volume_percent / 100)
            * (run_fed_batch constSolver exampleParams).P.getD 249 0
      ∧ (run_fed_batch constSolver exampleParams).S.getD 250 0
        = (1 - exampleParams.exchange_volume_percent / 100)
            * (run_fed_batch constSolver exampleParams).S.getD 249 0
          + (exampleParams.exchange_volume_percent / 100) * exampleParams.feed_substrate
      ∧ min ((run_fed_batch constSolver exampleParams).S.getD 249 0)
            exampleParams.feed_substrate
          ≤ (run_fed_batch constSolver exampleParams).S.getD 250 0
      ∧ (run_fed_batch constSolver exampleParams).S.getD 250 0
          ≤ max ((run_fed_batch constSolver exampleParams).S.getD 249 0)
              exampleParams.feed_substrate
      ∧ (run_fed_batch constSolver exampleParams).V.getD 250 0
          = (run_fed_batch constSolver exampleParams).V.getD 249 0) :=
  ⟨by norm_num [exampleParams], by norm_num [exampleParams],
   fed_batch_exchange_event constSolver exampleParams
     (fun kp y0 ts => by simp [constSolver])
     (by norm_num [exampleParams]) (by norm_num [exampleParams])⟩

lemma linspace_getLast? (a b : ℚ) {n : ℕ} (h : 2 ≤ n) :
    (linspace a b n).getLast? = some b := by
  rw [getLast?_of_ne_nil _ (0:ℚ) (linspace_ne_nil a b (by omega)),
      linspace_getLastD a b h]

lemma linspace_drop_one_head? (a b : ℚ) {n : ℕ} (h : 2 ≤ n) :
    ((linspace a b n).drop 1).head? = some (a + (b - a) * 1 / ((n : ℚ) - 1)) := by
  have hl : 1 < (linspace a b n).length := by
    rw [linspace_length]
    omega
  rw [List.drop_eq_getElem_cons hl, List.head?_cons]
  have h1 := linspace_getElem? a b (show 1 < n by omega)
  rw [List.getElem?_eq_getElem hl] at h1
  rw [Option.some.inj h1]
  norm_num

lemma fed_batch_t_chain (solve : Solver) (p : Params)
    (hex0 : 0 ≤ p.exchange_time) (hex50 : p.exchange_time ≤ 50) :
    List.Chain' (· ≤ ·) (run_fed_batch solve p).t := by
  simp only [run_fed_batch]
  rw [List.chain'_append]
  refine ⟨?_, ?_, ?_⟩
  · rw [List.chain'_append]
    refine ⟨linspace_chain_le hex0 _, List.chain'_singleton _, ?_⟩
    intro x hx y hy
    rw [linspace_getLast? _ _ (by omega)] at hx
    rw [List.head?_cons] at hy
    simp only [Option.mem_def, Option.some.injEq] at hx hy
    rw [← hx, ← hy]
  · rw [List.drop_one]
    exact (linspace_chain_le hex50 250).tail
  · intro x hx y hy
    rw [List.getLast?_concat] at hx
    rw [linspace_drop_one_head? _ _ (by omega)] at hy
    simp only [Option.mem_def, Option.some.injEq] at hx hy
    rw [← hx, ← hy]
    have hd : (0:ℚ) ≤ (50 - p.exchange_time) * 1 / ((250:ℚ) - 1) := by
      apply div_nonneg _ (by norm_num)
      linarith
    push_cast
    linarith

lemma fed_batch_time_tie (solve : Solver) (p : Params) :
    (run_fed_batch solve p).t.getD 250 0 = p.exchange_time
    ∧ (run_fed_batch solve p).t.getD 249 0 = p.exchange_time := by
  simp only [run_fed_batch]
  have h := event_index_getD (linspace 0 p.exchange_time 250)
    ((linspace p.exchange_time 50 250).drop 1) p.exchange_time (0:ℚ)
    (linspace_length _ _ _)
  refine ⟨h.1, ?_⟩
  rw [h.2, linspace_getD _ _ (by omega)]
  push_cast
  norm_num

lemma rfb_cycle_t_chain (solve : Solver) (kp : KinParams) (Sf hvp : ℚ)
    (sh : ℕ) (st : RfbState)
    (h : List.Chain' (· ≤ ·) st.t ∧ st.t.getLast? = some st.off) :
    List.Chain' (· ≤ ·) (rfb_cycle solve kp Sf hvp sh st).t
    ∧ (rfb_cycle solve kp Sf hvp sh st).t.getLast?
        = some (rfb_cycle solve kp Sf hvp sh st).off := by
  obtain ⟨hch, hlast⟩ := h
  constructor
  · simp only [rfb_cycle]
    rw [List.chain'_append]
    refine ⟨?_, ?_, ?_⟩
    · rw [List.chain'_append]
      refine ⟨hch, List.chain'_singleton _, ?_⟩
      intro x hx y hy
      rw [hlast] at hx
      rw [List.head?_cons] at hy
      simp only [Option.mem_def, Option.some.injEq] at hx hy
      rw [← hx, ← hy]
    · rw [List.chain'_map]
      apply List.Chain'.imp (fun a b hab => add_le_add_right hab st.off)
      rw [List.drop_one]
      exact (linspace_chain_le (Nat.cast_nonneg sh) _).tail
    · intro x hx y hy
      rw [List.getLast?_concat] at hx
      rw [List.head?_map] at hy
      simp only [Option.mem_def, Option.some.injEq] at hx
      cases hh : ((linspace 0 (sh:ℚ) (10 * sh)).drop 1).head? with
      | none =>
        rw [hh] at hy
        simp at hy
      | some z =>
        rw [hh] at hy
        simp only [Option.map_some', Option.mem_def, Option.some.injEq] at hy
        have hne : (linspace 0 (sh:ℚ) (10 * sh)).drop 1 ≠ [] := by
          intro hc
          rw [hc] at hh
          simp at hh
        have hlen2 : 2 ≤ 10 * sh := by
          have hpos : 0 < ((linspace 0 (sh:ℚ) (10 * sh)).drop 1).length :=
            List.length_pos.mpr hne
          rw [List.length_drop, linspace_length] at hpos
          omega
        have hz := linspace_drop_one_head? 0 (sh:ℚ) hlen2
        rw [hh] at hz
        have hzval := Option.some.inj hz
        have hc : (0:ℚ) < ((10 * sh : ℕ) : ℚ) - 1 := by
          have h2 : (2:ℚ) ≤ ((10 * sh : ℕ) : ℚ) := by exact_mod_cast hlen2
          linarith
        have hval : (0:ℚ) ≤ 0 + ((sh:ℚ) - 0) * 1 / (((10 * sh : ℕ):ℚ) - 1) := by
          have hsh : (0:ℚ) ≤ (sh:ℚ) := Nat.cast_nonneg sh
          have hdn := div_nonneg (by linarith : (0:ℚ) ≤ ((sh:ℚ) - 0) * 1) (le_of_lt hc)
          linarith
    
        rw [← hx, ← hy, hzval]
        linarith
  · simp only [rfb_cycle]
    exact getLast?_of_ne_nil _ 0 (by simp)

set_option maxRecDepth 8000 in
lemma rfb_t_chain (solve : Solver) (p : Params)
    (hfh : 1 ≤ p.first_harvest_time) :
    List.Chain' (· ≤ ·) (run_repeated_fed_batch solve p).1.t := by
  have key : ∀ (k : ℕ) (st : RfbState),
      (List.Chain' (· ≤ ·) st.t ∧ st.t.getLast? = some st.off) →
      List.Chain' (· ≤ ·) (((rfb_cycle solve ⟨p.mu_max, p.ks, p.Y_xs, p.Y_xp⟩
          p.feed_substrate p.harvest_volume_percent p.subsequent_harvest_time)^[k] st).t)
      ∧ (((rfb_cycle solve ⟨p.mu_max, p.ks, p.Y_xs, p.Y_xp⟩
          p.feed_substrate p.harvest_volume_percent p.subsequent_harvest_time)^[k] st).t).getLast?
        = some (((rfb_cycle solve ⟨p.mu_max, p.ks, p.Y_xs, p.Y_xp⟩
          p.feed_substrate p.harvest_volume_percent p.subsequent_harvest_time)^[k] st).off) := by
    intro k
    induction k with
    | zero => intro st h; exact h
    | succ k ih =>
      intro st h
      rw [Function.iterate_succ_apply']
      exact rfb_cycle_t_chain _ _ _ _ _ _ (ih st h)
  simp only [run_repeated_fed_batch]
  refine (key p.num_cycles _ ⟨?_, ?_⟩).1
  · exact linspace_chain_le (Nat.cast_nonneg _) _
  · exact getLast?_of_ne_nil _ 0 (linspace_ne_nil _ _ (by omega))

set_option maxRecDepth 8000 in
lemma perfusion_t_chain (psolve : PerfSolver) (p : Params) :
    List.Chain' (· < ·) (run_perfusion psolve p).t := by
  have hb : List.Chain' (· < ·) (linspace 0 50 500) := linspace_chain_lt (by norm_num) _
  simp only [run_perfusion]
  split
  · rw [List.chain'_iff_pairwise] at hb ⊢
    exact List.Pairwise.sublist (List.take_sublist _ _) hb
  · exact hb

set_option maxRecDepth 8000 in
/-- C7, as stated, is false: in a fed-batch run the sample ending the first
integration interval (row 249, at the exchange time) and the explicitly
inserted event sample (row 250, also at the exchange time) share the same
time, so the `Time (h)` column is not strictly increasing. -/
theorem trajectory_times_claim_false :
    ¬ List.Chain' (· < ·) (run_fed_batch constSolver exampleParams).t := by
  intro h
  have hlen : (run_fed_batch constSolver exampleParams).t.length = 500 := by
    simp only [run_fed_batch, List.length_append, List.length_drop,
      linspace_length, List.length_cons, List.length_nil]
  have h2 := List.chain'_iff_get.mp h 249 (by rw [hlen]; omega)
  have htie := fed_batch_time_tie constSolver exampleParams
  have hged : ∀ (i : ℕ) (hi : i < (run_fed_batch constSolver exampleParams).t.length),
      (run_fed_batch constSolver exampleParams).t.getD i 0
        = (run_fed_batch constSolver exampleParams).t.get ⟨i, hi⟩ := by
    intro i hi
    rw [List.getD_eq_getElem?_getD, List.getElem?_eq_getElem hi]
    rfl
  rw [← hged 249 (by omega), ← hged 250 (by omega)] at h2
  rw [htie.1, htie.2] at h2
  exact lt_irrefl _ h2

lemma getD_double_append {α : Type} (l : List α) (x : α) (rest : List α) (d : α)
    {i : ℕ} (h : i < l.length) :
    ((l ++ [x]) ++ rest).getD i d = l.getD i d := by
  have h1 : i < (l ++ [x]).length := by
    simp only [List.length_append, List.length_cons, List.length_nil]
    omega
  rw [List.getD_append _ _ _ _ h1, List.getD_append _ _ _ _ h]

lemma getD_double_append_at {α : Type} (l : List α) (x : α) (rest : List α) (d : α) :
    ((l ++ [x]) ++ rest).getD l.length d = x := by
  have h1 : l.length < (l ++ [x]).length := by
    simp only [List.length_append, List.length_cons, List.length_nil]
    omega
  rw [List.getD_append _ _ _ _ h1,
      List.getD_append_right _ _ _ _ (le_refl _)]
  simp

lemma rfb_t_tie_aux (solve : Solver) (kp : KinParams) (Sf hvp : ℚ) (sh : ℕ)
    (hsh : 1 ≤ sh) :
    ∀ (m : ℕ) (st : RfbState), 1 ≤ st.t.length →
      st.t.getLast? = some st.off →
      ((rfb_cycle solve kp Sf hvp sh)^[m] st).t.length = st.t.length + m * (10 * sh)
      ∧ ((rfb_cycle solve kp Sf hvp sh)^[m] st).t.getLast?
          = some ((rfb_cycle solve kp Sf hvp sh)^[m] st).off
      ∧ ∀ k, k < m →
          ((rfb_cycle solve kp Sf hvp sh)^[m] st).t.getD (st.t.length + k * (10 * sh)) 0
            = ((rfb_cycle solve kp Sf hvp sh)^[m] st).t.getD
                (st.t.length + k * (10 * sh) - 1) 0 := by
  intro m
  induction m with
  | zero =>
    intro st h1 h2
    simp only [Function.iterate_zero_apply]
    exact ⟨by simp, h2, fun k hk => absurd hk (Nat.not_lt_zero k)⟩
  | succ m ih =>
    intro st h1 h2
    obtain ⟨ihlen, ihlast, ihtie⟩ := ih st h1 h2
    rw [Function.iterate_succ_apply']
    set u := (rfb_cycle solve kp Sf hvp sh)^[m] st with hu
    have hulen1 : 1 ≤ u.t.length := by
      rw [ihlen]
      omega
    refine ⟨?_, ?_, ?_⟩
    · simp only [rfb_cycle, List.length_append, List.length_map, List.length_drop,
        linspace_length, List.length_cons, List.length_nil]
      rw [ihlen, show (m + 1) * (10 * sh) = m * (10 * sh) + 10 * sh from by ring]
      omega
    · simp only [rfb_cycle]
      exact getLast?_of_ne_nil _ 0 (by simp)
    · intro k hk
      simp only [rfb_cycle]
      rcases Nat.lt_succ_iff_lt_or_eq.mp hk with hk' | hk'
      · have hmul : k * (10 * sh) < m * (10 * sh) :=
          (Nat.mul_lt_mul_right (by omega)).mpr hk'
        have hik : st.t.length + k * (10 * sh) < u.t.length := by
          rw [ihlen]
          exact Nat.add_lt_add_left hmul _
        have hik1 : st.t.length + k * (10 * sh) - 1 < u.t.length :=
          lt_of_le_of_lt (Nat.sub_le _ _) hik
        rw [getD_double_append _ _ _ _ hik, getD_double_append _ _ _ _ hik1]
        exact ihtie k hk'
      · subst hk'
        rw [← ihlen]
        rw [getD_double_append_at, getD_double_append _ _ _ _ (by omega)]
        rw [← getLastD_eq_getD, List.getLastD_eq_getLast?, ihlast]
        rfl

lemma rfb_time_ties (solve : Solver) (p : Params)
    (hfh : 1 ≤ p.first_harvest_time) (hsh : 1 ≤ p.subsequent_harvest_time) :
    ∀ k, k < p.num_cycles →
      (run_repeated_fed_batch solve p).1.t.getD
          (10 * p.first_harvest_time + k * (10 * p.subsequent_harvest_time)) 0
        = (run_repeated_fed_batch solve p).1.t.getD
          (10 * p.first_harvest_time + k * (10 * p.subsequent_harvest_time) - 1) 0 := by
  intro k hk
  simp only [run_repeated_fed_batch]
  have hidx : (linspace 0 (p.first_harvest_time : ℚ) (10 * p.first_harvest_time)).length
      + k * (10 * p.subsequent_harvest_time)
      = 10 * p.first_harvest_time + k * (10 * p.subsequent_harvest_time) := by
    rw [linspace_length]
  rw [← hidx]
  exact (rfb_t_tie_aux solve ⟨p.mu_max, p.ks, p.Y_xs, p.Y_xp⟩ p.feed_substrate
      p.harvest_volume_percent p.subsequent_harvest_time hsh p.num_cycles _
      (by rw [linspace_length]; omega)
      (getLast?_of_ne_nil _ 0 (linspace_ne_nil _ _ (by omega)))).2.2 k hk

set_option maxRecDepth 8000 in
/-- C7, amended to the code: in every run of every mode the `Time (h)` column
is non-decreasing from sample to sample; it is strictly increasing in batch
and perfusion mode (which insert no event samples), while in fed-batch and
repeated fed-batch the inserted event sample carries exactly the same time
as the sample ending the preceding integration interval, so strict increase
fails at each such boundary: for fed-batch at rows 249/250, and for repeated
fed-batch at the boundary of every one of the `num_cycles` cycles (row
`10*first_harvest_time + k*(10*subsequent_harvest_time)` repeats the time of
the row before it, for every cycle index `k < num_cycles`). -/
theorem trajectory_times_monotone (solve : Solver) (psolve : PerfSolver)
    (p : Params) (hex0 : 0 ≤ p.exchange_time) (hex50 : p.exchange_time ≤ 50)
    (hfh : 1 ≤ p.first_harvest_time) (hsh : 1 ≤ p.subsequent_harvest_time) :
    List.Chain' (· < ·) (run_simulation solve psolve Mode.batch p).1.t
    ∧ List.Chain' (· ≤ ·) (run_simulation solve psolve Mode.fedBatch p).1.t
    ∧ (run_simulation solve psolve Mode.fedBatch p).1.t.getD 250 0
        = (run_simulation solve psolve Mode.fedBatch p).1.t.getD 249 0
    ∧ List.Chain' (· ≤ ·) (run_simulation solve psolve Mode.repeatedFedBatch p).1.t
    ∧ (∀ k, k < p.num_cycles →
        (run_simulation solve psolve Mode.repeatedFedBatch p).1.t.getD
            (10 * p.first_harvest_time + k * (10 * p.subsequent_harvest_time)) 0
          = (run_simulation solve psolve Mode.repeatedFedBatch p).1.t.getD
            (10 * p.first_harvest_time + k * (10 * p.subsequent_harvest_time) - 1) 0)
    ∧ List.Chain' (· < ·) (run_simulation solve psolve Mode.bleedPerfusion p).1.t := by
  refine ⟨?_, ?_, ?_, ?_, ?_, ?_⟩
  · simp only [run_simulation, run_batch]
    exact linspace_chain_lt (by norm_num) _
  · exact fed_batch_t_chain solve p hex0 hex50
  · rw [show (run_simulation solve psolve Mode.fedBatch p).1 = run_fed_batch solve p from rfl,
      (fed_batch_time_tie solve p).1, (fed_batch_time_tie solve p).2]
  · exact rfb_t_chain solve p hfh
  · exact rfb_time_ties solve p hfh hsh
  · exact perfusion_t_chain psolve p

set_option maxRecDepth 8000 in
/-- Witness for `trajectory_times_monotone` at concrete solvers and the
default parameters. -/
theorem trajectory_times_monotone_witness :
    ((0:ℚ) ≤ exampleParams.exchange_time)
    ∧ (exampleParams.exchange_time ≤ 50)
    ∧ (1 ≤ exampleParams.first_harvest_time)
    ∧ (1 ≤ exampleParams.subsequent_harvest_time)
    ∧ (List.Chain' (· < ·) (run_simulation constSolver constPerfSolver Mode.batch exampleParams).1.t
      ∧ List.Chain' (· ≤ ·) (run_simulation constSolver constPerfSolver Mode.fedBatch exampleParams).1.t
      ∧ (run_simulation constSolver constPerfSolver Mode.fedBatch exampleParams).1.t.getD 250 0
          = (run_simulation constSolver constPerfSolver Mode.fedBatch exampleParams).1.t.getD 249 0
      ∧ List.Chain' (· ≤ ·) (run_simulation constSolver constPerfSolver Mode.repeatedFedBatch exampleParams).1.t
      ∧ (∀ k, k < exampleParams.num_cycles →
          (run_simulation constSolver constPerfSolver Mode.repeatedFedBatch exampleParams).1.t.getD
              (10 * exampleParams.first_harvest_time + k * (10 * exampleParams.subsequent_harvest_time)) 0
            = (run_simulation constSolver constPerfSolver Mode.repeatedFedBatch exampleParams).1.t.getD
              (10 * exampleParams.first_harvest_time + k * (10 * exampleParams.subsequent_harvest_time) - 1) 0)
      ∧ List.Chain' (· < ·) (run_simulation constSolver constPerfSolver Mode.bleedPerfusion exampleParams).1.t) :=
  ⟨by norm_num [exampleParams], by norm_num [exampleParams], by decide, by decide,
   trajectory_times_monotone constSolver constPerfSolver exampleParams
     (by norm_num [exampleParams]) (by norm_num [exampleParams]) (by decide) (by decide)⟩
